import Mathlib

/-!
Shallow embedding of `pymatgen/io/GWsetup.py` (GW input setup for VASP/ABINIT),
together with proofs about its parameter-derivation functions.

Conventions of the embedding:
* Python's true division (`from __future__ import division` is in effect) is
  embedded as division in `ℚ`; Python's `int(...)` conversion, which truncates
  toward zero, is embedded as `pyint`.
* A structure object is reduced to the data the functions read: the list of
  per-site element symbols and the cell volume.  The POTCAR-derived valence
  table (element symbol → number of valence electrons) is passed as a function,
  standing for the external pseudopotential-table collaborator.
* The `incar_settings` dict is embedded as a finite map `String → Option PyVal`.
-/

namespace GWsetup

/-- Python `int()` on a rational: truncation toward zero. -/
def pyint (q : ℚ) : ℤ := if 0 ≤ q then ⌊q⌋ else -⌊-q⌋

theorem pyint_of_nonneg {q : ℚ} (h : 0 ≤ q) : pyint q = ⌊q⌋ := if_pos h

/-- Data of a pymatgen structure read by the GW setup code: one element symbol
per site, and the cell volume. -/
structure PyStructure where
  species : List String
  volume : ℚ

/-- Embedding of `MPGWscDFTPrepVaspInputSet.get_electrons`: sums the valence
electron count of each site's element, looked up in the POTCAR-derived
per-element table `valence`. -/
def get_electrons (valence : String → ℕ) (s : PyStructure) : ℕ :=
  (s.species.map valence).sum

/-- Embedding of `MPGWscDFTPrepVaspInputSet.get_bands`:
`int(self.get_electrons(structure) / 2 + len(structure))` with true division. -/
def get_bands (valence : String → ℕ) (s : PyStructure) : ℤ :=
  pyint ((get_electrons valence s : ℚ) / 2 + (s.species.length : ℚ))

/-- Core formula of `get_npar`, abstracted over the band count and volume:
`npar = int(bands ** 2 * volume / 600); npar = min(max(npar, 1), 52)`. -/
def npar_formula (bands : ℤ) (volume : ℚ) : ℤ :=
  min (max (pyint ((bands : ℚ) ^ 2 * volume / 600)) 1) 52

/-- Embedding of `MPGWscDFTPrepVaspInputSet.get_npar`. -/
def get_npar (valence : String → ℕ) (s : PyStructure) : ℤ :=
  npar_formula (get_bands valence s) s.volume

/-- Value stored in an INCAR settings dict: an integer or a string. -/
inductive PyVal where
  | int (n : ℤ)
  | str (s : String)
deriving DecidableEq

/-- Embedding of the `incar_settings` dict as a finite map. -/
def Settings := String → Option PyVal

/-- Dict update with a single key, `d[k] = v`. -/
def Settings.set (st : Settings) (k : String) (v : PyVal) : Settings :=
  fun k2 => if k2 = k then some v else st k2

/-- Value stored as NBANDS by `MPGWDFTDiagVaspInputSet.set_gw_bands`:
`gw_bands = self.get_npar(...) * int((factor * gw_bands) / self.get_npar(...) + 1)`
where the inner `gw_bands` starts as `self.get_bands(self.structure)`. -/
def gw_bands_value (valence : String → ℕ) (s : PyStructure) (factor : ℤ) : ℤ :=
  get_npar valence s *
    pyint (((factor * get_bands valence s : ℤ) : ℚ) / ((get_npar valence s : ℤ) : ℚ) + 1)

/-- Embedding of `MPGWDFTDiagVaspInputSet.set_gw_bands`: stores NBANDS and, when
the value exceeds 800, switches ALGO to `'fast'`. -/
def set_gw_bands (valence : String → ℕ) (s : PyStructure) (factor : ℤ)
    (st : Settings) : Settings :=
  let gw_bands := gw_bands_value valence s factor
  let st := st.set "NBANDS" (.int gw_bands)
  if gw_bands > 800 then st.set "ALGO" (.str "fast") else st

/-- Value stored as NBANDSGW by `MPGWG0W0VaspInputSet.gw0_on`:
`nbandsgw = self.get_bands(self.structure) * gwbandsfac; nbandsgw = npar * int(nbandsgw / npar)`. -/
def nbandsgw_value (valence : String → ℕ) (s : PyStructure) (gwbandsfac : ℤ) : ℤ :=
  get_npar valence s *
    pyint (((get_bands valence s * gwbandsfac : ℤ) : ℚ) / ((get_npar valence s : ℤ) : ℚ))

/-- Embedding of `MPGWG0W0VaspInputSet.gw0_on(niter=4, gwbandsfac=4, qpsc=False)`. -/
def gw0_on (valence : String → ℕ) (s : PyStructure) (niter : ℤ) (gwbandsfac : ℤ)
    (qpsc : Bool) (st : Settings) : Settings :=
  let st := st.set "NELM" (.int niter)
  let st := st.set "NBANDSGW" (.int (nbandsgw_value valence s gwbandsfac))
  if qpsc then st.set "ALGO" (.str "scGW0") else st

/-- Value stored as NOMEGA by the `MPGWG0W0VaspInputSet` constructor:
`nomega_max = 25 * kpts[0][0]; nomega = npar * int(self.nomega_max / npar)`.
The first axis count of the automatic gamma k-point grid is passed in, the grid
generator being an external collaborator. -/
def g0w0_nomega (valence : String → ℕ) (s : PyStructure) (first_axis : ℕ) : ℤ :=
  get_npar valence s *
    pyint (((25 * first_axis : ℕ) : ℚ) / ((get_npar valence s : ℤ) : ℚ))

/-- Entry of a TESTS sweep catalog:
`{'test_range': (...), 'method': ..., 'control': ...}`. -/
structure TestEntry where
  test_range : List ℤ
  method : String
  control : String
deriving DecidableEq

/-- Association-list dict with `String` keys, as used for the TESTS catalogs. -/
abbrev TestDict := List (String × TestEntry)

/-- Dict assignment `d[k] = v` on an association list: replaces the value of an
existing key, otherwise appends the pair. -/
def dictSet (l : TestDict) (k : String) (v : TestEntry) : TestDict :=
  if l.any (fun p => p.1 = k) then l.map (fun p => if p.1 = k then (k, v) else p)
  else l ++ [(k, v)]

/-- Python `base.update(upd)` on association-list dicts. -/
def dictUpdate (base upd : TestDict) : TestDict :=
  upd.foldl (fun acc kv => dictSet acc kv.1 kv.2) base

/-- `MPGWscDFTPrepVaspInputSet.TESTS = {}`. -/
def prep_TESTS : TestDict := []

/-- `MPGWDFTDiagVaspInputSet.TESTS`. -/
def diag_TESTS : TestDict :=
  [("NBANDS", ⟨[10, 20, 30], "set_nbands", "gap"⟩)]

/-- `MPGWG0W0VaspInputSet.TESTS`. -/
def g0w0_TESTS : TestDict :=
  [("ENCUTGW", ⟨[200, 300, 400], "incar_settings", "gap"⟩),
   ("NOMEGA", ⟨[80, 100, 120], "set_nomega", "gap"⟩)]

/-- Catalog built at the start of `set_test`: the prep defaults updated with the
diagonalization and then the G0W0 defaults. -/
def all_tests : TestDict := dictUpdate (dictUpdate prep_TESTS diag_TESTS) g0w0_TESTS

/-- Value stored as NOMEGA by the `set_nomega` branch of `set_test`:
`nomega = npar * int(_test_['NOMEGA'] / npar)`. -/
def nomega_test_value (valence : String → ℕ) (s : PyStructure) (value : ℤ) : ℤ :=
  get_npar valence s * pyint ((value : ℚ) / ((get_npar valence s : ℤ) : ℚ))

/-- Value stored as NBANDS by the `set_nbands` branch of `set_test`:
`nbands = _test_['NBANDS'] * self.get_bands(self.structure);
nbands = npar * int(nbands / npar + 1)`. -/
def nbands_test_value (valence : String → ℕ) (s : PyStructure) (value : ℤ) : ℤ :=
  get_npar valence s *
    pyint (((value * get_bands valence s : ℤ) : ℚ) / ((get_npar valence s : ℤ) : ℚ) + 1)

/-- Embedding of `MPGWscDFTPrepVaspInputSet.set_test`, with the catalog (in the
source, the union of the three class TESTS tables) passed explicitly; the
argument `_test_` is the singleton dict `{param: value}`.  The catalog lookup
`all_tests[_test_.keys()[0]]` happens first and raises `KeyError` (embedded as
`.error param`) before anything is updated; the branch bodies read
`_test_['NOMEGA']` resp. `_test_['NBANDS']`, which raises unless `param` is that
very key; the `kpoint_grid` branch is `pass`. -/
def set_test_with (catalog : TestDict) (valence : String → ℕ) (s : PyStructure)
    (param : String) (value : ℤ) (st : Settings) : Except String Settings :=
  match catalog.lookup param with
  | none => .error param
  | some entry =>
    if entry.method = "incar_settings" then .ok (st.set param (.int value))
    else if entry.method = "set_nomega" then
      if param = "NOMEGA" then
        .ok (st.set "NOMEGA" (.int (nomega_test_value valence s value)))
      else .error "NOMEGA"
    else if entry.method = "set_nbands" then
      if param = "NBANDS" then
        .ok (st.set "NBANDS" (.int (nbands_test_value valence s value)))
      else .error "NBANDS"
    else .ok st

/-- Embedding of `set_test` with the concrete catalog of the source. -/
def set_test (valence : String → ℕ) (s : PyStructure) (param : String) (value : ℤ)
    (st : Settings) : Except String Settings :=
  set_test_with all_tests valence s param value st

/-- Settings of the input-set object after a `set_test` call: on a raised
exception the object keeps its previous settings. -/
def set_test_state (valence : String → ℕ) (s : PyStructure) (param : String)
    (value : ℤ) (st : Settings) : Settings :=
  match set_test valence s param value st with
  | .ok st2 => st2
  | .error _ => st

/-- Characters stripped by `folder_name` and `create_input`:
`["'", ":", " ", ",", "{", "}"]` (braces and the quote written via `Char.ofNat`). -/
def strip_chars : List Char := [Char.ofNat 39, ':', ' ', ',', Char.ofNat 123, Char.ofNat 125]

/-- Removal of every occurrence of the stripped characters, the combined effect
of the six `str.replace(char, "")` calls. -/
def strip (cs : List Char) : List Char := cs.filter (fun c => !(strip_chars.contains c))

/-- Selection dict of a sweep option: empty, or a single parameter-name/value
pair, both already rendered to characters. -/
abbrev Sel := Option (List Char × List Char)

/-- Python `str` rendering of a selection dict: `{}` when empty, otherwise
`{'KEY': VALUE}`. -/
def render_sel : Sel → List Char
  | none => [Char.ofNat 123, Char.ofNat 125]
  | some kv =>
    [Char.ofNat 123, Char.ofNat 39] ++ kv.1 ++ [Char.ofNat 39, ':', ' '] ++ kv.2
      ++ [Char.ofNat 125]

/-- Label derived from one selection: its rendering with the unsafe characters
stripped, prefixed with a dot when non-empty. -/
def folder_name_one (sel : Sel) : List Char :=
  let s := strip (render_sel sel)
  if 0 < s.length then '.' :: s else s

/-- Embedding of `folder_name`: the pair of labels for the prep-stage and
stage selections (the same rendering is inlined in
`SingleVaspGWWork.create_input` and `create_job_script`). -/
def folder_name (option : Sel × Sel) : List Char × List Char :=
  (folder_name_one option.1, folder_name_one option.2)

/-- Python `str.lower`, mapping `Char.toLower` over the characters. -/
def pyLower (s : String) : String := ⟨s.data.map Char.toLower⟩

/-- Fields of the `GWSpecs.data` dict. -/
structure SpecData where
  mode : String
  jobs : List String
  test : Bool
  source : String
  code : String
  functional : String
  kp_grid_dens : ℤ
  prec : String
deriving DecidableEq

/-- State of a `GWSpecs` object: the data dict and the accumulated warning and
error lists. -/
structure GWSpecsState where
  data : SpecData
  warnings : List String
  errors : List String
deriving DecidableEq

/-- Embedding of `GWSpecs.__init__`: the default data, empty warnings and
errors. -/
def GWSpecs_init : GWSpecsState :=
  ⟨⟨"ceci", ["prep", "G0W0"], false, "mp-vasp", "VASP", "PBE", 500, "m"⟩, [], []⟩

/-- Error messages appended by one call of `GWSpecs.test`, in source order: the
mode check, the code/functional branch, the structure-source check.  The
`os.path.isfile` call is the external filesystem collaborator `isfile`. -/
def new_errors (isfile : String → Bool) (d : SpecData) : List String :=
  (if ["input", "ceci", "fw"].contains (pyLower d.mode) then []
   else ["unspecified mode"]) ++
  (if d.code = "VASP" then
     (if ["PBE", "LDA"].contains d.functional then []
      else [d.functional ++ "not defined for VASP yet"])
   else if d.code = "ABINIT" then
     (if ["PBE"].contains d.functional then []
      else [d.functional ++ "not defined for ABINIT yet"])
   else ["unknown code"]) ++
  (if ["poscar", "mp-vasp"].contains d.source then []
   else if isfile d.source then [] else ["no structures defined"])

/-- Warning messages appended by one call of `GWSpecs.test`: only the
ABINIT-with-tests advisory. -/
def new_warnings (d : SpecData) : List String :=
  if d.code = "VASP" then []
  else if d.code = "ABINIT" then
    (if d.test ∧ d.code = "ABINIT" then ["no tests defined for ABINIT calculations"]
     else [])
  else []

/-- Embedding of `GWSpecs.test`: appends the new errors and warnings to the
accumulated lists (nothing ever clears them) and reports whether the run exits.
`exit()` is called iff the accumulated error list is non-empty, before
`reset_job_collection` and hence before any job could be created. -/
def spec_test (isfile : String → Bool) (g : GWSpecsState) : GWSpecsState × Bool :=
  let errors := g.errors ++ new_errors isfile g.data
  let warnings := g.warnings ++ new_warnings g.data
  (⟨g.data, warnings, errors⟩, decide (0 < errors.length))

/-- Fields of a `Kpoints` object relevant to the irreducible-mesh strategy; the
k-point type is abstract. -/
structure KpointsObj (α : Type) where
  comment : String
  style : String
  num_kpts : ℕ
  kpts : List α
  kpts_weights : List ℤ

/-- Embedding of the `regular=False` branch of
`MPGWDFTDiagVaspInputSet.get_kpoints`: the irreducible mesh (point, weight)
pairs come from the external `SymmetryFinder.get_ir_reciprocal_mesh`; the
band-extrema points `structure.cbm` and `structure.vbm` are appended, each with
weight `int(0)`; the constructed object declares `num_kpts = len(ir_kpts)`. -/
def diag_kpoints_irred {α : Type} (ir_kpts : List (α × ℕ)) (cbm vbm : α) :
    KpointsObj α :=
  let kpts := ir_kpts.map Prod.fst ++ [cbm, vbm]
  let weights := ir_kpts.map (fun k => (k.2 : ℤ)) ++ [0, 0]
  ⟨"uniform grid with extrema", "Reciprocal", ir_kpts.length, kpts, weights⟩

/-! Helper lemmas. -/

theorem Settings.set_self (st : Settings) (k : String) (v : PyVal) :
    st.set k v k = some v := by
  simp [Settings.set]

theorem Settings.set_ne (st : Settings) {k k2 : String} (v : PyVal) (h : k2 ≠ k) :
    st.set k v k2 = st k2 := by
  simp [Settings.set, h]

theorem get_bands_nonneg (valence : String → ℕ) (s : PyStructure) :
    0 ≤ get_bands valence s := by
  unfold get_bands
  rw [pyint_of_nonneg (by positivity)]
  exact Int.floor_nonneg.2 (by positivity)

theorem one_le_get_npar (valence : String → ℕ) (s : PyStructure) :
    1 ≤ get_npar valence s :=
  le_min (le_max_right _ _) (by norm_num)

theorem get_npar_le (valence : String → ℕ) (s : PyStructure) :
    get_npar valence s ≤ 52 :=
  min_le_right _ _

theorem get_npar_pos (valence : String → ℕ) (s : PyStructure) :
    0 < get_npar valence s :=
  lt_of_lt_of_le one_pos (one_le_get_npar valence s)

theorem npar_formula_eq_floor (b : ℤ) (v : ℚ) (h : 0 ≤ (b : ℚ) ^ 2 * v) :
    npar_formula b v = min (max ⌊(b : ℚ) ^ 2 * v / 600⌋ 1) 52 := by
  unfold npar_formula
  rw [pyint_of_nonneg (div_nonneg h (by norm_num))]

theorem npar_formula_mono {b1 b2 : ℤ} {v1 v2 : ℚ} (h1 : 0 ≤ (b1 : ℚ) ^ 2 * v1)
    (hm : (b1 : ℚ) ^ 2 * v1 ≤ (b2 : ℚ) ^ 2 * v2) :
    npar_formula b1 v1 ≤ npar_formula b2 v2 := by
  rw [npar_formula_eq_floor _ _ h1, npar_formula_eq_floor _ _ (h1.trans hm)]
  refine min_le_min (max_le_max (Int.floor_le_floor ?_) le_rfl) le_rfl
  exact div_le_div_of_nonneg_right hm (by norm_num)

/-! Claims. -/

/-- C1 counterexample: at the one-atom zero-valence structure with volume 900
the band count is 1, `b^2 * v / 600 = 3/2`, and the estimator returns
`clamp(floor(3/2), 1, 52) = 1`, not `clamp(round(3/2), 1, 52) = 2`: the claim's
rounding formula disagrees with `get_npar`, which truncates via `int()`. -/
theorem C1_round_counterexample :
    get_bands (fun _ => 0) ⟨["H"], 900⟩ = 1 ∧
    get_npar (fun _ => 0) ⟨["H"], 900⟩ = 1 ∧
    min (max (round (((get_bands (fun _ => 0) ⟨["H"], 900⟩ : ℤ) : ℚ) ^ 2
      * (900 : ℚ) / 600)) 1) 52 = 2 := by
  refine ⟨?_, ?_, ?_⟩
  · norm_num [get_bands, get_electrons, pyint]
  · norm_num [get_npar, npar_formula, get_bands, get_electrons, pyint]
  · rw [show get_bands (fun _ => 0) ⟨["H"], 900⟩ = 1 by
      norm_num [get_bands, get_electrons, pyint]]
    norm_num [round_eq]

/-- C1 (amended: the estimator truncates, so `floor` replaces `round`): for
every band count `b ≥ 1` and volume `v > 0`, `npar_formula b v` equals
`clamp(floor(b^2 * v / 600), 1, 52)`, lies in `[1, 52]`, and is monotonically
non-decreasing in `b^2 * v`; and `get_npar` is exactly this formula applied to
the structure's derived band count and volume. -/
theorem C1_get_npar_floor_clamp (b : ℤ) (v : ℚ) (hb : 1 ≤ b) (hv : 0 < v) :
    npar_formula b v = min (max ⌊(b : ℚ) ^ 2 * v / 600⌋ 1) 52 ∧
    1 ≤ npar_formula b v ∧ npar_formula b v ≤ 52 ∧
    (∀ (b2 : ℤ) (v2 : ℚ), (b : ℚ) ^ 2 * v ≤ (b2 : ℚ) ^ 2 * v2 →
      npar_formula b v ≤ npar_formula b2 v2) ∧
    (∀ (valence : String → ℕ) (s : PyStructure),
      get_npar valence s = npar_formula (get_bands valence s) s.volume) := by
  have h0 : 0 ≤ (b : ℚ) ^ 2 * v := by positivity
  refine ⟨npar_formula_eq_floor b v h0, le_min (le_max_right _ _) (by norm_num),
    min_le_right _ _, ?_, fun valence s => rfl⟩
  intro b2 v2 hm
  exact npar_formula_mono h0 hm

/-- Witness for `C1_get_npar_floor_clamp` at `b = 1`, `v = 900`. -/
theorem C1_witness :
    (1 : ℤ) ≤ 1 ∧ (0 : ℚ) < 900 ∧
    npar_formula 1 900 = min (max ⌊((1 : ℤ) : ℚ) ^ 2 * (900 : ℚ) / 600⌋ 1) 52 :=
  ⟨le_refl 1, by norm_num, (C1_get_npar_floor_clamp 1 900 (le_refl 1) (by norm_num)).1⟩

/-- C2: `set_gw_bands(factor)` stores
`NBANDS = npar * floor(factor * bands / npar + 1)` and switches ALGO to
`'fast'` whenever that value exceeds 800; concretely, on a structure with
derived band count 58 and volume 1200 the parallel factor is 52, `factor = 15`
yields `52 * 17 = 884 > 800`, and ALGO is set to `'fast'`. -/
theorem C2_set_gw_bands (valence : String → ℕ) (s : PyStructure) (factor : ℤ)
    (st : Settings) (hf : 0 ≤ factor) :
    set_gw_bands valence s factor st "NBANDS"
      = some (.int (gw_bands_value valence s factor)) ∧
    gw_bands_value valence s factor
      = get_npar valence s *
          ⌊((factor * get_bands valence s : ℤ) : ℚ) / ((get_npar valence s : ℤ) : ℚ) + 1⌋ ∧
    (gw_bands_value valence s factor > 800 →
      set_gw_bands valence s factor st "ALGO" = some (.str "fast")) ∧
    get_npar (fun _ => 56) ⟨["X", "Y"], 1200⟩ = 52 ∧
    gw_bands_value (fun _ => 56) ⟨["X", "Y"], 1200⟩ 15 = 884 ∧
    set_gw_bands (fun _ => 56) ⟨["X", "Y"], 1200⟩ 15 st "ALGO" = some (.str "fast") := by
  have hnpar : (0 : ℚ) < ((get_npar valence s : ℤ) : ℚ) := by
    exact_mod_cast get_npar_pos valence s
  have harg : 0 ≤ ((factor * get_bands valence s : ℤ) : ℚ)
      / ((get_npar valence s : ℤ) : ℚ) + 1 := by
    have hnum : (0 : ℚ) ≤ ((factor * get_bands valence s : ℤ) : ℚ) := by
      exact_mod_cast mul_nonneg hf (get_bands_nonneg valence s)
    positivity
  have hval : get_npar (fun _ => 56) ⟨["X", "Y"], 1200⟩ = 52 := by
    norm_num [get_npar, npar_formula, get_bands, get_electrons, pyint]
  have hgw : gw_bands_value (fun _ => 56) ⟨["X", "Y"], 1200⟩ 15 = 884 := by
    norm_num [gw_bands_value, get_npar, npar_formula, get_bands, get_electrons, pyint]
  refine ⟨?_, ?_, ?_, hval, hgw, ?_⟩
  · unfold set_gw_bands
    by_cases h : gw_bands_value valence s factor > 800
    · rw [if_pos h, Settings.set_ne _ _ (by decide), Settings.set_self]
    · rw [if_neg h, Settings.set_self]
  · unfold gw_bands_value
    rw [pyint_of_nonneg harg]
  · intro h
    unfold set_gw_bands
    rw [if_pos h, Settings.set_self]
  · unfold set_gw_bands
    rw [hgw]
    norm_num [Settings.set_self]

/-- Witness for `C2_set_gw_bands` at the concrete structure with band count 58
and volume 1200, `factor = 15`, on the empty settings dict. -/
theorem C2_witness :
    (0 : ℤ) ≤ 15 ∧
    set_gw_bands (fun _ => 56) ⟨["X", "Y"], 1200⟩ 15 (fun _ => none) "NBANDS"
      = some (.int (gw_bands_value (fun _ => 56) ⟨["X", "Y"], 1200⟩ 15)) :=
  ⟨by norm_num,
   (C2_set_gw_bands (fun _ => 56) ⟨["X", "Y"], 1200⟩ 15 (fun _ => none) (by norm_num)).1⟩

/-- C3: every band-count-scaling quantity (the NBANDS value of the
`set_nbands` branch of `set_test` and of `set_gw_bands`) and every
frequency-grid-alignment quantity (the NOMEGA value of the `set_nomega` branch
of `set_test` and of the `MPGWG0W0VaspInputSet` constructor) is an exact
integer multiple of the parallel factor `get_npar` used to derive it. -/
theorem C3_parallel_factor_divides (valence : String → ℕ) (s : PyStructure)
    (factor value : ℤ) (first_axis : ℕ) (st : Settings) :
    get_npar valence s ∣ gw_bands_value valence s factor ∧
    get_npar valence s ∣ nbands_test_value valence s value ∧
    get_npar valence s ∣ nomega_test_value valence s value ∧
    get_npar valence s ∣ g0w0_nomega valence s first_axis ∧
    set_test valence s "NBANDS" value st
      = .ok (st.set "NBANDS" (.int (nbands_test_value valence s value))) ∧
    set_test valence s "NOMEGA" value st
      = .ok (st.set "NOMEGA" (.int (nomega_test_value valence s value))) ∧
    set_gw_bands valence s factor st "NBANDS"
      = some (.int (gw_bands_value valence s factor)) := by
  refine ⟨dvd_mul_right _ _, dvd_mul_right _ _, dvd_mul_right _ _, dvd_mul_right _ _,
    rfl, rfl, ?_⟩
  unfold set_gw_bands
  by_cases h : gw_bands_value valence s factor > 800
  · rw [if_pos h, Settings.set_ne _ _ (by decide), Settings.set_self]
  · rw [if_neg h, Settings.set_self]

theorem strip_append (a b : List Char) : strip (a ++ b) = strip a ++ strip b :=
  List.filter_append _ _

theorem strip_idem (l : List Char) : strip (strip l) = strip l := by
  simp [strip, List.filter_filter]

theorem strip_render_some (k v : List Char) :
    strip (render_sel (some (k, v))) = strip k ++ strip v := by
  have h1 : strip [Char.ofNat 123, Char.ofNat 39] = [] := by decide
  have h2 : strip [Char.ofNat 39, ':', ' '] = [] := by decide
  have h3 : strip [Char.ofNat 125] = [] := by decide
  simp only [render_sel, strip_append, h1, h2, h3]
  simp

/-- C4 counterexample: the label derivation is not injective over distinct
selection pairs — the selections `{'NBANDS': 10}` and `{'NBANDS1': 0}` differ
in key and value yet strip to the same label `.NBANDS10`. -/
theorem C4_folder_name_counterexample :
    folder_name (some ("NBANDS".data, "10".data), none)
      = folder_name (some ("NBANDS1".data, "0".data), none) ∧
    (some ("NBANDS".data, "10".data), (none : Sel))
      ≠ (some ("NBANDS1".data, "0".data), (none : Sel)) := by
  constructor
  · decide
  · decide

/-- C4 (amended: injectivity over all distinct selection pairs fails, since
distinct keys can merge after stripping; what holds is injectivity in the value
for a fixed key, for values free of stripped characters): the label derivation
is idempotent (stripping its output changes nothing), an empty selection
yields an empty suffix, a non-empty result starts with `'.'`, and for a fixed
key, selections whose stripped-character-free values differ yield different
labels. -/
theorem C4_folder_name_amended :
    (∀ sel : Sel, strip (folder_name_one sel) = folder_name_one sel) ∧
    folder_name_one none = [] ∧
    (∀ sel : Sel, folder_name_one sel ≠ [] → (folder_name_one sel).head? = some '.') ∧
    (∀ k v w : List Char, strip v = v → strip w = w →
      folder_name_one (some (k, v)) = folder_name_one (some (k, w)) → v = w) := by
  have hdot : ∀ s : List Char, strip ('.' :: s) = '.' :: strip s := by
    intro s
    rw [strip, List.filter_cons_of_pos]
    · rfl
    · decide
  refine ⟨?_, by decide, ?_, ?_⟩
  · intro sel
    unfold folder_name_one
    by_cases h : 0 < (strip (render_sel sel)).length
    · rw [if_pos h, hdot, strip_idem]
    · rw [if_neg h, strip_idem]
  · intro sel h
    unfold folder_name_one at h ⊢
    by_cases hl : 0 < (strip (render_sel sel)).length
    · rw [if_pos hl]
      rfl
    · rw [if_neg hl] at h
      exact absurd (List.length_eq_zero.mp (Nat.eq_zero_of_not_pos hl)) h
  · intro k v w hv hw h
    unfold folder_name_one at h
    rw [strip_render_some k v, strip_render_some k w, hv, hw] at h
    by_cases h1 : 0 < (strip k ++ v).length
    · by_cases h2 : 0 < (strip k ++ w).length
      · rw [if_pos h1, if_pos h2] at h
        exact List.append_cancel_left (List.cons_injective h)
      · rw [if_pos h1, if_neg h2] at h
        have : (strip k ++ w).length = 0 := Nat.eq_zero_of_not_pos h2
        rw [List.length_eq_zero.mp this] at h
        exact absurd h (List.cons_ne_nil _ _)
    · by_cases h2 : 0 < (strip k ++ w).length
      · rw [if_neg h1, if_pos h2] at h
        have : (strip k ++ v).length = 0 := Nat.eq_zero_of_not_pos h1
        rw [List.length_eq_zero.mp this] at h
        exact absurd h.symm (List.cons_ne_nil _ _)
      · rw [if_neg h1, if_neg h2] at h
        have e1 := List.append_eq_nil.mp (List.length_eq_zero.mp (Nat.eq_zero_of_not_pos h1))
        have e2 := List.append_eq_nil.mp (List.length_eq_zero.mp (Nat.eq_zero_of_not_pos h2))
        rw [e1.2, e2.2]

/-- Witness for `C4_folder_name_amended`: the head-dot part at the NBANDS
selection and the fixed-key injectivity part at values `10` and `20`. -/
theorem C4_witness :
    (folder_name_one (some ("NBANDS".data, "10".data)) ≠ [] ∧
     (folder_name_one (some ("NBANDS".data, "10".data))).head? = some '.') ∧
    (strip "10".data = "10".data ∧ strip "20".data = "20".data ∧
     (folder_name_one (some ("NBANDS".data, "10".data))
        = folder_name_one (some ("NBANDS".data, "20".data)) → "10".data = "20".data)) :=
  ⟨⟨by decide, C4_folder_name_amended.2.2.1 _ (by decide)⟩,
   ⟨by decide, by decide, C4_folder_name_amended.2.2.2 _ _ _ (by decide) (by decide)⟩⟩

/-- Spec data with all fields at their defaults except code `'ABINIT'` and
functional `'LDA'`. -/
def spec_data_abinit_lda : SpecData :=
  ⟨"ceci", ["prep", "G0W0"], false, "mp-vasp", "ABINIT", "LDA", 500, "m"⟩

/-- Spec data with all fields at their defaults except code `'ABINIT'` and the
test flag enabled. -/
def spec_data_abinit_test : SpecData :=
  ⟨"ceci", ["prep", "G0W0"], true, "mp-vasp", "ABINIT", "PBE", 500, "m"⟩

/-- C5: validation of a spec with code `'ABINIT'` and functional `'LDA'`, all
other fields at their defaults, records exactly one error and exits (the exit
flag is raised, so no job is ever created); with code `'ABINIT'` and the test
flag enabled it records a warning, no error, and does not exit. -/
theorem C5_abinit_lda_validation :
    ((spec_test (fun _ => false) ⟨spec_data_abinit_lda, [], []⟩).1.errors
        = ["LDAnot defined for ABINIT yet"] ∧
     (spec_test (fun _ => false) ⟨spec_data_abinit_lda, [], []⟩).2 = true) ∧
    ((spec_test (fun _ => false) ⟨spec_data_abinit_test, [], []⟩).1.warnings
        = ["no tests defined for ABINIT calculations"] ∧
     (spec_test (fun _ => false) ⟨spec_data_abinit_test, [], []⟩).1.errors = [] ∧
     (spec_test (fun _ => false) ⟨spec_data_abinit_test, [], []⟩).2 = false) := by
  refine ⟨⟨?_, ?_⟩, ?_, ?_, ?_⟩ <;> decide

/-- C6: the nominal band count `get_bands` equals
`floor(electrons / 2) + number_of_atoms`, the electron total being summed over
every atom of the structure from the per-element valence table. -/
theorem C6_get_bands_formula (valence : String → ℕ) (s : PyStructure) :
    get_bands valence s
      = ((get_electrons valence s / 2 : ℕ) : ℤ) + (s.species.length : ℤ) := by
  unfold get_bands
  rw [pyint_of_nonneg (by positivity)]
  rw [show ((s.species.length : ℕ) : ℚ) = ((s.species.length : ℤ) : ℚ) by push_cast; ring]
  rw [Int.floor_add_int]
  rw [show ((get_electrons valence s : ℕ) : ℚ) / 2
        = ((get_electrons valence s : ℕ) : ℚ) / ((2 : ℕ) : ℚ) by norm_num]
  rw [Rat.floor_natCast_div_natCast]
  norm_cast

/-- C7: `gw0_on(niter, gwbandsfac, qpsc)` stores NELM = niter and
`NBANDSGW = npar * floor(bands * gwbandsfac / npar)`, and switches ALGO to the
self-consistent variant `'scGW0'` exactly when `qpsc` is requested; concretely,
on a structure with band count 58 and parallel factor 52, `gwbandsfac = 4`
stores `52 * 4 = 208`. -/
theorem C7_gw0_on (valence : String → ℕ) (s : PyStructure) (niter gwbandsfac : ℤ)
    (qpsc : Bool) (st : Settings) (hf : 0 ≤ gwbandsfac) :
    gw0_on valence s niter gwbandsfac qpsc st "NELM" = some (.int niter) ∧
    gw0_on valence s niter gwbandsfac qpsc st "NBANDSGW"
      = some (.int (nbandsgw_value valence s gwbandsfac)) ∧
    nbandsgw_value valence s gwbandsfac
      = get_npar valence s *
          ⌊((get_bands valence s * gwbandsfac : ℤ) : ℚ) / ((get_npar valence s : ℤ) : ℚ)⌋ ∧
    (qpsc = true →
      gw0_on valence s niter gwbandsfac qpsc st "ALGO" = some (.str "scGW0")) ∧
    (qpsc = false →
      gw0_on valence s niter gwbandsfac qpsc st "ALGO" = st "ALGO") ∧
    get_npar (fun _ => 56) ⟨["X", "Y"], 1200⟩ = 52 ∧
    get_bands (fun _ => 56) ⟨["X", "Y"], 1200⟩ = 58 ∧
    nbandsgw_value (fun _ => 56) ⟨["X", "Y"], 1200⟩ 4 = 208 := by
  have harg : 0 ≤ ((get_bands valence s * gwbandsfac : ℤ) : ℚ)
      / ((get_npar valence s : ℤ) : ℚ) := by
    have hnum : (0 : ℚ) ≤ ((get_bands valence s * gwbandsfac : ℤ) : ℚ) := by
      exact_mod_cast mul_nonneg (get_bands_nonneg valence s) hf
    have hden : (0 : ℚ) ≤ ((get_npar valence s : ℤ) : ℚ) := by
      exact_mod_cast (get_npar_pos valence s).le
    exact div_nonneg hnum hden
  refine ⟨?_, ?_, ?_, ?_, ?_, ?_, ?_, ?_⟩
  · unfold gw0_on
    cases qpsc with
    | false =>
      rw [if_neg (by simp), Settings.set_ne _ _ (by decide), Settings.set_self]
    | true =>
      rw [if_pos rfl, Settings.set_ne _ _ (by decide),
        Settings.set_ne _ _ (by decide), Settings.set_self]
  · unfold gw0_on
    cases qpsc with
    | false => rw [if_neg (by simp), Settings.set_self]
    | true => rw [if_pos rfl, Settings.set_ne _ _ (by decide), Settings.set_self]
  · unfold nbandsgw_value
    rw [pyint_of_nonneg harg]
  · intro h
    subst h
    unfold gw0_on
    rw [if_pos rfl, Settings.set_self]
  · intro h
    subst h
    unfold gw0_on
    rw [if_neg (by simp), Settings.set_ne _ _ (by decide), Settings.set_ne _ _ (by decide)]
  · norm_num [get_npar, npar_formula, get_bands, get_electrons, pyint]
  · norm_num [get_bands, get_electrons, pyint]
  · norm_num [nbandsgw_value, get_npar, npar_formula, get_bands, get_electrons, pyint]

/-- Witness for `C7_gw0_on` at the concrete structure with band count 58 and
parallel factor 52, `niter = 4`, `gwbandsfac = 4`, `qpsc = false`. -/
theorem C7_witness :
    (0 : ℤ) ≤ 4 ∧
    gw0_on (fun _ => 56) ⟨["X", "Y"], 1200⟩ 4 4 false (fun _ => none) "NELM"
      = some (.int 4) :=
  ⟨by norm_num,
   (C7_gw0_on (fun _ => 56) ⟨["X", "Y"], 1200⟩ 4 4 false (fun _ => none) (by norm_num)).1⟩

/-- C8: a `set_test` override whose parameter is not a key of the combined
sweep catalog (the union of the prep, diagonalization and many-body tables)
raises `KeyError`, and the catalog lookup happens before any update, so the
settings are left unchanged; an override whose catalog entry carries the
`kpoint_grid` method is an explicit no-op that succeeds with the settings
unchanged. -/
theorem C8_set_test_unknown_and_noop (valence : String → ℕ) (s : PyStructure)
    (param : String) (value : ℤ) (st : Settings) :
    (all_tests.lookup param = none →
      set_test valence s param value st = .error param ∧
      set_test_state valence s param value st = st) ∧
    (∀ (catalog : TestDict) (e : TestEntry), catalog.lookup param = some e →
      e.method = "kpoint_grid" →
      set_test_with catalog valence s param value st = .ok st) := by
  constructor
  · intro h
    have herr : set_test valence s param value st = .error param := by
      unfold set_test set_test_with
      rw [h]
    refine ⟨herr, ?_⟩
    unfold set_test_state
    rw [herr]
  · intro catalog e h hm
    unfold set_test_with
    rw [h]
    simp [hm]

/-- Witness for `C8_set_test_unknown_and_noop` at the parameter `KPTS`, absent
from the combined catalog, and at a catalog holding a `kpoint_grid` entry for
it. -/
theorem C8_witness :
    all_tests.lookup "KPTS" = none ∧
    ([("KPTS", (⟨[], "kpoint_grid", "gap"⟩ : TestEntry))] : TestDict).lookup "KPTS"
      = some (⟨[], "kpoint_grid", "gap"⟩ : TestEntry) ∧
    set_test (fun _ => 0) ⟨["H"], 900⟩ "KPTS" 0 (fun _ => none) = .error "KPTS" ∧
    set_test_with [("KPTS", ⟨[], "kpoint_grid", "gap"⟩)] (fun _ => 0) ⟨["H"], 900⟩
      "KPTS" 0 (fun _ => none) = .ok (fun _ => none) :=
  ⟨by decide, by decide,
   ((C8_set_test_unknown_and_noop (fun _ => 0) ⟨["H"], 900⟩ "KPTS" 0
      (fun _ => none)).1 (by decide)).1,
   (C8_set_test_unknown_and_noop (fun _ => 0) ⟨["H"], 900⟩ "KPTS" 0
      (fun _ => none)).2 [("KPTS", ⟨[], "kpoint_grid", "gap"⟩)]
      ⟨[], "kpoint_grid", "gap"⟩ (by decide) rfl⟩

/-- C9: the k-point object built by the diagonalization stage's
irreducible-mesh strategy has point and weight lists of length
`len(ir_kpts) + 2` (the two appended zero-weight band-extrema points), while
its declared `num_kpts` equals `len(ir_kpts)` — always exactly 2 less than the
actual list length. -/
theorem C9_diag_kpoints_counts {α : Type} (ir_kpts : List (α × ℕ)) (cbm vbm : α) :
    (diag_kpoints_irred ir_kpts cbm vbm).kpts.length = ir_kpts.length + 2 ∧
    (diag_kpoints_irred ir_kpts cbm vbm).kpts_weights.length = ir_kpts.length + 2 ∧
    (diag_kpoints_irred ir_kpts cbm vbm).num_kpts = ir_kpts.length ∧
    (diag_kpoints_irred ir_kpts cbm vbm).num_kpts + 2
      = (diag_kpoints_irred ir_kpts cbm vbm).kpts.length := by
  simp [diag_kpoints_irred]

/-- C10: `GWSpecs.test` only appends to the accumulated error and warning
lists, never clearing them, so once an error is recorded every further call on
the same object still reports it and exits, even if the data has been
corrected to a valid configuration in between. -/
theorem C10_test_accumulates (isfile : String → Bool) (g : GWSpecsState)
    (e w : String) (he : e ∈ g.errors) (hw : w ∈ g.warnings) :
    e ∈ (spec_test isfile g).1.errors ∧
    w ∈ (spec_test isfile g).1.warnings ∧
    (spec_test isfile g).2 = true := by
  refine ⟨List.mem_append_left _ he, List.mem_append_left _ hw, ?_⟩
  simp only [spec_test, decide_eq_true_eq]
  calc 0 < g.errors.length := List.length_pos.2 (List.ne_nil_of_mem he)
    _ ≤ (g.errors ++ new_errors isfile g.data).length := by
        rw [List.length_append]; exact Nat.le_add_right _ _

/-- Witness for `C10_test_accumulates`: a spec object whose data has been
corrected back to the valid defaults but which still carries one stale error
and one stale warning. -/
theorem C10_witness :
    "stale error" ∈ (⟨GWSpecs_init.data, ["old warning"], ["stale error"]⟩
      : GWSpecsState).errors ∧
    "stale error" ∈ (spec_test (fun _ => true)
      ⟨GWSpecs_init.data, ["old warning"], ["stale error"]⟩).1.errors ∧
    "old warning" ∈ (spec_test (fun _ => true)
      ⟨GWSpecs_init.data, ["old warning"], ["stale error"]⟩).1.warnings ∧
    (spec_test (fun _ => true)
      ⟨GWSpecs_init.data, ["old warning"], ["stale error"]⟩).2 = true :=
  ⟨by decide,
   (C10_test_accumulates (fun _ => true)
     ⟨GWSpecs_init.data, ["old warning"], ["stale error"]⟩ "stale error" "old warning"
     (by decide) (by decide)).1,
   (C10_test_accumulates (fun _ => true)
     ⟨GWSpecs_init.data, ["old warning"], ["stale error"]⟩ "stale error" "old warning"
     (by decide) (by decide)).2.1,
   (C10_test_accumulates (fun _ => true)
     ⟨GWSpecs_init.data, ["old warning"], ["stale error"]⟩ "stale error" "old warning"
     (by decide) (by decide)).2.2⟩

end GWsetup
